import Mathlib

/-!
A shallow embedding of `src/pleiades/simData.py` (the PLEIADES transmission
computation engine): the cross-section file parser `parse_xs_file`, the
transmission calculator `create_transmission`, and the `Isotope` record with
its `load_xs_data` step.

Modelling conventions:
* Python floats are embedded as `ℚ` (exact arithmetic); the one transcendental
  operation, `np.exp`, is embedded as `Real.exp` on `ℝ`.
* Python exceptions (`ValueError`) are embedded as `Except SimError`; the
  exact message strings of the source are kept, because some claims are about
  message contents.  The source's messages at `simData.py:39` and
  `simData.py:41` are plain (non-f) string literals, so their placeholder
  text `\x7bthickness_unit\x7d` / `\x7bisotope_name\x7d` is part of the
  literal message; the embedding reproduces those braces verbatim.
* The file handle iteration `for line in f` is embedded as a `List String` of
  the file's lines, passed next to the `file_location` string (which the
  source only uses inside error messages).
-/

/-- A raised Python `ValueError` (the only exception class the module uses). -/
inductive SimError where
  | valueError (msg : String)
deriving DecidableEq, Repr

/-- Python's substring test `pat in s`, on the underlying character lists. -/
def charListContains (pat : List Char) : List Char → Bool
  | [] => pat.isEmpty
  | c :: rest => pat.isPrefixOf (c :: rest) || charListContains pat rest

/-- Python's `pat in s` for strings. -/
def strContainsSub (s pat : String) : Bool :=
  charListContains pat.data s.data

/-- Python's `s.startswith(pat)` for strings. -/
def strStartsWith (s pat : String) : Bool :=
  pat.data.isPrefixOf s.data

/-- Helper for `splitWhitespace`: walk the characters, accumulating the
current (reversed) token. -/
def splitWsAux : List Char → List Char → List (List Char)
  | [], acc => if acc = [] then [] else [acc.reverse]
  | c :: rest, acc =>
    if c.isWhitespace then
      if acc = [] then splitWsAux rest [] else acc.reverse :: splitWsAux rest []
    else
      splitWsAux rest (c :: acc)

/-- Python's `s.split()` with no separator: split on whitespace runs, dropping
empty tokens. -/
def splitWhitespace (s : String) : List (List Char) :=
  splitWsAux s.data []

/-- Value of a digit list read in base 10 (used by the float parser). -/
def digitsToNat (cs : List Char) : Nat :=
  cs.foldl (fun n c => 10 * n + (c.toNat - 48)) 0

/-- Python's `float(s)` restricted to the decimal forms the cross-section
files use: optional sign, digits, optional fractional part.  Returns `none`
exactly where `float` would raise `ValueError` on such tokens. -/
def parseFloatQ (tok : List Char) : Option ℚ :=
  let (sign, cs) : ℚ × List Char :=
    match tok with
    | '-' :: rest => (-1, rest)
    | '+' :: rest => (1, rest)
    | cs => (1, cs)
  let (intPart, rest) := cs.span (fun c => c.isDigit)
  match rest with
  | [] =>
    if intPart = [] then none
    else some (sign * (digitsToNat intPart : ℚ))
  | '.' :: frac =>
    if frac.all (fun c => c.isDigit) ∧ (intPart ≠ [] ∨ frac ≠ []) then
      some (sign * ((digitsToNat intPart : ℚ) +
        (digitsToNat frac : ℚ) / (10 : ℚ) ^ frac.length))
    else none
  | _ => none

/-- `simData.py:7`: Avogadro's number. -/
def AVOGADRO : ℚ := 6.02214076e23

/-- `simData.py:8`: conversion factor from cm² to barns. -/
def CM2_TO_BARN : ℚ := 1e24

/-- The mutable locals of the scan loop of `parse_xs_file`
(`xs_data`, `isotope_xs_found`, `capture_data`). -/
structure ScanState where
  xs_data : List (ℚ × ℚ)
  isotope_xs_found : Bool
  capture_data : Bool
deriving DecidableEq, Repr

/-- `simData.py:96-97`: unpack a data line into two tokens, parse both as
floats, and convert the energy from MeV to eV (`*1E6`).  A wrong token count
is Python's unpacking `ValueError`; a non-numeric token is `float`'s
`ValueError`. -/
def parseDataLine (line : String) : Except SimError (ℚ × ℚ) :=
  match splitWhitespace line with
  | [etok, xtok] =>
    match parseFloatQ etok, parseFloatQ xtok with
    | some ev, some xv => .ok (ev * 1e6, xv)
    | _, _ => .error (.valueError ("could not convert string to float: " ++ line))
  | _ => .error (.valueError ("values to unpack: expected 2 in line: " ++ line))

instance {e a : Type} [DecidableEq e] [DecidableEq a] : DecidableEq (Except e a) := fun
  | .ok x, .ok y =>
    if h : x = y then .isTrue (by rw [h]) else .isFalse (by intro hc; cases hc; exact h rfl)
  | .ok _, .error _ => .isFalse (by intro hc; cases hc)
  | .error _, .ok _ => .isFalse (by intro hc; cases hc)
  | .error x, .error y =>
    if h : x = y then .isTrue (by rw [h]) else .isFalse (by intro hc; cases hc; exact h rfl)

/-- `simData.py:82-97`: the line scan of `parse_xs_file`.  A line containing
the isotope name sets `isotope_xs_found`; once found, `#data...` starts
capture, a line containing `//` stops capture and breaks out of the loop, and
while capturing, lines not starting with `#` are parsed as data rows. -/
def scanLines (isotope_name : String) : List String → ScanState → Except SimError ScanState
  | [], st => .ok st
  | line :: rest, st =>
    let found := st.isotope_xs_found || strContainsSub line isotope_name
    if found then
      if strContainsSub line "#data..." then
        scanLines isotope_name rest ⟨st.xs_data, found, true⟩
      else if strContainsSub line "//" then
        .ok ⟨st.xs_data, found, false⟩
      else if st.capture_data && !(strStartsWith line "#") then
        match parseDataLine line with
        | .ok p => scanLines isotope_name rest ⟨st.xs_data ++ [p], found, st.capture_data⟩
        | .error e => .error e
      else
        scanLines isotope_name rest ⟨st.xs_data, found, st.capture_data⟩
    else
      scanLines isotope_name rest st

/-- `simData.py:64-104`: parse the cross-section file (given as its list of
lines) and return the (energy_eV, cross-section) rows for the isotope, or the
`ValueError` of `simData.py:102` when the isotope name occurs in no line. -/
def parse_xs_file (file_location : String) (fileLines : List String)
    (isotope_name : String) : Except SimError (List (ℚ × ℚ)) :=
  match scanLines isotope_name fileLines ⟨[], false, false⟩ with
  | .error e => .error e
  | .ok st =>
    if st.isotope_xs_found then
      .ok st.xs_data
    else
      .error (.valueError ("Cross-section data for " ++ isotope_name ++
        " not found in " ++ file_location))

/-- `simData.py:108-120`: the isotope record. -/
structure Isotope where
  name : String
  atomic_mass : ℚ
  thickness : ℚ
  thickness_unit : String
  abundance : ℚ
  xs_file_location : String
  density : ℚ
  density_unit : String
  xs_data : List (ℚ × ℚ)
deriving DecidableEq, Repr

/-- The constructor defaults of `Isotope.__init__` (`simData.py:111`);
`xs_data` starts empty. -/
def Isotope.default : Isotope :=
  ⟨"Unknown", 0, 0, "atoms/cm2", 0, "Unknown", 0, "g/cm3", []⟩

/-- `simData.py:122-126`: `Isotope.load_xs_data`.  The parsed rows are
assigned to `self.xs_data` first; only then is the empty-result check made.
The result pairs the raised error (if any) with the post-call state of the
isotope, so that the mutation visible after an exception is kept. -/
def load_xs_data (iso : Isotope) (fileLines : List String) :
    Except SimError Unit × Isotope :=
  match parse_xs_file iso.xs_file_location fileLines iso.name with
  | .error e => (.error e, iso)
  | .ok xs =>
    let iso' := { iso with xs_data := xs }
    if iso'.xs_data = [] then
      (.error (.valueError ("No data loaded for " ++ iso.name ++ " from " ++
        iso.xs_file_location)), iso')
    else
      (.ok (), iso')

/-- Insert a point into a list of points kept ascending by energy. -/
def insertByEnergy (p : ℚ × ℚ) : List (ℚ × ℚ) → List (ℚ × ℚ)
  | [] => [p]
  | q :: rest => if p.1 < q.1 then p :: q :: rest else q :: insertByEnergy p rest

/-- Sort points ascending by energy (scipy's `interp1d` sorts its abscissae
when `assume_sorted` is left false). -/
def sortByEnergy : List (ℚ × ℚ) → List (ℚ × ℚ)
  | [] => []
  | p :: rest => insertByEnergy p (sortByEnergy rest)

/-- Piecewise-linear interpolation through a sorted point list, extrapolating
linearly from the nearest edge segment outside the tabulated range; on a
one-point table it returns that point's ordinate. -/
def interpPoints : List (ℚ × ℚ) → ℚ → ℚ
  | [], _ => 0
  | [p], _ => p.2
  | p :: q :: rest, e =>
    if e ≤ q.1 ∨ rest = [] then
      p.2 + (q.2 - p.2) * (e - p.1) / (q.1 - p.1)
    else
      interpPoints (q :: rest) e

/-- Modelled from the spec: `scipy.interpolate.interp1d(..., kind=linear,
fill_value=extrapolate)`, the external library call at `simData.py:47` (scipy
is not part of this repository).  Per spec §4.2 it is the piecewise-linear
interpolant over the tabulated (energy, cross-section) pairs, exact at
tabulated energies and extrapolating linearly from the nearest edge segment
beyond the table's range. -/
def interp1d (pts : List (ℚ × ℚ)) (e : ℚ) : ℚ :=
  interpPoints (sortByEnergy pts) e

/-- `simData.py:43`: the areal density (atoms/cm² scaled to barn⁻¹),
`thickness * density * AVOGADRO / atomic_mass / CM2_TO_BARN`, with the
thickness already converted to cm. -/
def areal_density_of (thickness_cm density atomic_mass : ℚ) : ℚ :=
  thickness_cm * density * AVOGADRO / atomic_mass / CM2_TO_BARN

/-- `simData.py:40-61`: the part of `create_transmission` after the thickness
unit has been resolved to `thickness_cm` in cm: validate the density unit,
then map every grid energy to `(energy, exp(-xs(energy) * areal_density))`.
An empty `xs_data` is the unpacking `ValueError` that
`zip(*xs_data)` raises at `simData.py:46`. -/
noncomputable def create_transmission_validated (energy_grid : List ℚ)
    (isotope : Isotope) (thickness_cm : ℚ) : Except SimError (List (ℚ × ℝ)) :=
  if isotope.density_unit ≠ "g/cm3" then
    .error (.valueError "Unsupported density unit:\x7bdensity_unit\x7d for \x7bisotope_name\x7d")
  else if isotope.xs_data = [] then
    .error (.valueError "not enough values to unpack (expected 2, got 0)")
  else
    let areal_density := areal_density_of thickness_cm isotope.density isotope.atomic_mass
    .ok (energy_grid.map (fun energy =>
      (energy, Real.exp (-((interp1d isotope.xs_data energy * areal_density : ℚ) : ℝ)))))

/-- `simData.py:10-61`: `create_transmission`.  A thickness unit other than
`"cm"` is either `"mm"` (divide the thickness by 10) or a `ValueError`; then
the validated computation runs.  The two unit error messages are the
source's plain (non-f) string literals, braces included. -/
noncomputable def create_transmission (energy_grid : List ℚ) (isotope : Isotope) :
    Except SimError (List (ℚ × ℝ)) :=
  if isotope.thickness_unit ≠ "cm" then
    if isotope.thickness_unit = "mm" then
      create_transmission_validated energy_grid isotope (isotope.thickness / 10)
    else
      .error (.valueError "Unsupported thickness unit: \x7bthickness_unit\x7d for \x7bisotope_name\x7d")
  else
    create_transmission_validated energy_grid isotope isotope.thickness

/-! Concrete fixtures shared by several theorems below. -/

/-- The spec §8 concrete-scenario isotope: thickness 1 cm, density 1 g/cm3,
atomic mass 1, a single tabulated point (1e6 eV, 1 barn). -/
def isoScenario : Isotope :=
  ⟨"H1", 1, 1, "cm", 0, "xs.dat", 1, "g/cm3", [(1000000, 1)]⟩

/-- An isotope left with the constructor default thickness unit
`"atoms/cm2"`. -/
def isoDefaultUnit : Isotope :=
  { Isotope.default with name := "U235", thickness := 1, density := 1 }

/-- An isotope with the rejected density unit of spec §8. -/
def isoBadDensity : Isotope :=
  { isoScenario with density_unit := "kg/m3" }

/-- An isotope tagged in mm. -/
def isoMm : Isotope :=
  { isoScenario with thickness := 3, thickness_unit := "mm" }

/-- An isotope that already holds a previously loaded series. -/
def isoLoaded : Isotope :=
  { Isotope.default with name := "A", xs_file_location := "xs.dat", xs_data := [(1, 1)] }

/-- The synthetic cross-section file of spec §8's parser round-trip. -/
def fileRoundTrip : List String :=
  ["A", "#data...", "1.0 2.5", "2.0 3.0", "//"]

/-- Mapping `Prod.fst` over a graph-style pair list recovers the inputs. -/
theorem map_fst_pair_map (g : List ℚ) (f : ℚ → ℝ) :
    (g.map fun e => (e, f e)).map Prod.fst = g := by
  induction g with
  | nil => rfl
  | cons a t ih => simp [ih]

/-- Claim C1: for every energy grid and every isotope with valid units and
non-empty loaded cross-section data, `create_transmission` returns exactly one
(energy, transmission) pair per grid point, with output energies equal to the
grid values in the same order; a zero-length grid (an instance of the
quantifier) yields an empty curve without an error. -/
theorem create_transmission_grid_alignment (energy_grid : List ℚ) (isotope : Isotope)
    (htu : isotope.thickness_unit = "cm" ∨ isotope.thickness_unit = "mm")
    (hdu : isotope.density_unit = "g/cm3") (hxs : isotope.xs_data ≠ []) :
    ∃ curve, create_transmission energy_grid isotope = .ok curve ∧
      curve.map Prod.fst = energy_grid ∧ curve.length = energy_grid.length := by
  have heq : ∀ t : ℚ,
      create_transmission_validated energy_grid isotope t =
        .ok (energy_grid.map fun e =>
          (e, Real.exp (-((interp1d isotope.xs_data e *
            areal_density_of t isotope.density isotope.atomic_mass : ℚ) : ℝ)))) := by
    intro t
    simp [create_transmission_validated, hdu, hxs]
  have hval : ∀ t : ℚ, ∃ curve,
      create_transmission_validated energy_grid isotope t = .ok curve ∧
        curve.map Prod.fst = energy_grid ∧ curve.length = energy_grid.length :=
    fun t => ⟨_, heq t, map_fst_pair_map _ _, by simp⟩
  rcases htu with h | h
  · simpa [create_transmission, h] using hval isotope.thickness
  · have := hval (isotope.thickness / 10)
    simpa [create_transmission, h] using this

theorem create_transmission_grid_alignment_witness :
    (∃ curve, create_transmission [5, 7] isoScenario = .ok curve ∧
      curve.map Prod.fst = [5, 7] ∧ curve.length = 2) ∧
    (∃ curve, create_transmission [] isoScenario = .ok curve ∧
      curve.map Prod.fst = [] ∧ curve.length = 0) :=
  ⟨create_transmission_grid_alignment [5, 7] isoScenario (Or.inl rfl) rfl (by decide),
   create_transmission_grid_alignment [] isoScenario (Or.inl rfl) rfl (by decide)⟩

/-- Claim C2: on the spec §8 scenario isotope (thickness 1 cm, density 1
g/cm3, atomic mass 1, single tabulated point (1e6 eV, 1 barn)),
`create_transmission` at energy 1e6 computes areal density 0.602214076 and
returns transmission exp(-0.602214076) (≈ 0.5476, in particular strictly
between 0 and 1) at that energy. -/
theorem create_transmission_concrete_scenario :
    areal_density_of 1 1 1 = 0.602214076 ∧
    create_transmission [1000000] isoScenario =
      .ok [((1000000 : ℚ), Real.exp (-((0.602214076 : ℚ) : ℝ)))] ∧
    0 < Real.exp (-((0.602214076 : ℚ) : ℝ)) ∧
    Real.exp (-((0.602214076 : ℚ) : ℝ)) < 1 := by
  have had : areal_density_of 1 1 1 = 0.602214076 := by
    norm_num [areal_density_of, AVOGADRO, CM2_TO_BARN]
  have hxs : interp1d [((1000000 : ℚ), (1 : ℚ))] 1000000 = 1 := by decide
  refine ⟨had, ?_, Real.exp_pos _, ?_⟩
  · simp +decide [create_transmission, create_transmission_validated, isoScenario, hxs, had]
  · rw [Real.exp_lt_one_iff]
    norm_num

/-- The concrete round-trip parse of `fileRoundTrip`, shared helper. -/
theorem parse_round_trip_eq :
    parse_xs_file "xs.dat" fileRoundTrip "A" =
      .ok [(1000000, 5 / 2), (2000000, 3)] := by
  have h1 : parseDataLine "1.0 2.5" = .ok (1000000, 5 / 2) := by
    simp +decide [parseDataLine, splitWhitespace, splitWsAux, parseFloatQ, digitsToNat]
    norm_num
  have h2 : parseDataLine "2.0 3.0" = .ok (2000000, 3) := by
    simp +decide [parseDataLine, splitWhitespace, splitWsAux, parseFloatQ, digitsToNat]
    norm_num
  simp +decide [parse_xs_file, fileRoundTrip, scanLines, h1, h2]

/-- Claim C3: on the synthetic file with a line naming `A`, the `#data...`
marker, the two data lines `1.0 2.5` and `2.0 3.0` and a closing `//`,
`parse_xs_file` for isotope `A` returns exactly [(1e6, 2.5), (2e6, 3.0)]:
each energy is scaled from MeV to eV by 1e6 and pairs keep file order. -/
theorem parse_xs_file_round_trip :
    parse_xs_file "xs.dat" fileRoundTrip "A" =
      .ok [(1000000, 5 / 2), (2000000, 3)] :=
  parse_round_trip_eq

/-- Claim C4: `create_transmission` fails with the thickness/density unit
`ValueError` whenever the thickness unit is neither "cm" nor "mm" (the
constructor default "atoms/cm2" included) or the density unit is not exactly
"g/cm3", regardless of the other fields; and a thickness tagged "mm" is used
as thickness/10 in cm. -/
theorem create_transmission_unit_validation (isotope : Isotope) (energy_grid : List ℚ) :
    ((isotope.thickness_unit ≠ "cm" ∧ isotope.thickness_unit ≠ "mm") ∨
        isotope.density_unit ≠ "g/cm3" →
      ∃ msg, create_transmission energy_grid isotope = .error (.valueError msg)) ∧
    (isotope.thickness_unit = "mm" →
      create_transmission energy_grid isotope =
        create_transmission energy_grid
          { isotope with thickness := isotope.thickness / 10, thickness_unit := "cm" }) := by
  constructor
  · rintro (⟨h1, h2⟩ | h3)
    · exact ⟨"Unsupported thickness unit: \x7bthickness_unit\x7d for \x7bisotope_name\x7d",
        by simp [create_transmission, h1, h2]⟩
    · by_cases h1 : isotope.thickness_unit = "cm"
      · exact ⟨"Unsupported density unit:\x7bdensity_unit\x7d for \x7bisotope_name\x7d",
          by simp [create_transmission, create_transmission_validated, h1, h3]⟩
      · by_cases h2 : isotope.thickness_unit = "mm"
        · exact ⟨"Unsupported density unit:\x7bdensity_unit\x7d for \x7bisotope_name\x7d",
            by simp [create_transmission, create_transmission_validated, h1, h2, h3]⟩
        · exact ⟨"Unsupported thickness unit: \x7bthickness_unit\x7d for \x7bisotope_name\x7d",
            by simp [create_transmission, h1, h2]⟩
  · intro h
    simp +decide [create_transmission, create_transmission_validated, h]

theorem create_transmission_unit_validation_witness :
    (∃ msg, create_transmission [1000000] isoDefaultUnit = .error (.valueError msg)) ∧
    (∃ msg, create_transmission [1000000] isoBadDensity = .error (.valueError msg)) ∧
    create_transmission [1000000] isoMm =
      create_transmission [1000000]
        { isoMm with thickness := 3 / 10, thickness_unit := "cm" } :=
  ⟨(create_transmission_unit_validation isoDefaultUnit [1000000]).1
      (Or.inl ⟨by decide, by decide⟩),
   (create_transmission_unit_validation isoBadDensity [1000000]).1 (Or.inr (by decide)),
   (create_transmission_unit_validation isoMm [1000000]).2 rfl⟩

/-- When the isotope name occurs in no line, the scan leaves its state
untouched. -/
theorem scanLines_no_occurrence (isotope_name : String) (fileLines : List String)
    (st : ScanState) (hfound : st.isotope_xs_found = false)
    (h : ∀ l ∈ fileLines, strContainsSub l isotope_name = false) :
    scanLines isotope_name fileLines st = .ok st := by
  induction fileLines with
  | nil => rfl
  | cons line rest ih =>
    have hl := h line (List.mem_cons_self _ _)
    simp [scanLines, hfound, hl, ih (fun l hm => h l (List.mem_cons_of_mem _ hm))]

/-- Claim C5: for every file in which the isotope name occurs as a substring
of no line, `parse_xs_file` fails with the NotFound `ValueError` naming that
isotope and the file location. -/
theorem parse_xs_file_not_found (file_location : String) (fileLines : List String)
    (isotope_name : String)
    (h : ∀ l ∈ fileLines, strContainsSub l isotope_name = false) :
    parse_xs_file file_location fileLines isotope_name =
      .error (.valueError ("Cross-section data for " ++ isotope_name ++
        " not found in " ++ file_location)) := by
  simp [parse_xs_file, scanLines_no_occurrence isotope_name fileLines ⟨[], false, false⟩ rfl h]

theorem parse_xs_file_not_found_witness :
    parse_xs_file "xs.dat" ["hello", "// block", "world"] "Z" =
      .error (.valueError ("Cross-section data for " ++ "Z" ++
        " not found in " ++ "xs.dat")) :=
  parse_xs_file_not_found "xs.dat" ["hello", "// block", "world"] "Z" (by decide)

/-- Counterexample to claim C6 as stated: for the one-line file `["A"]` and
isotope name `A` the name is found, no data rows are captured, and
`parse_xs_file` returns an empty list without raising. -/
theorem parse_xs_file_found_empty_ok :
    parse_xs_file "xs.dat" ["A"] "A" = .ok [] := by decide

/-- Claim C6 (amended): `parse_xs_file` itself can return an empty series
(name found, zero data rows); the non-emptiness invariant is enforced one
level up, by `load_xs_data`, which raises on an empty parse result — so
whenever `load_xs_data` returns without raising, the isotope's `xs_data` is
non-empty. -/
theorem load_xs_data_success_nonempty (iso : Isotope) (fileLines : List String)
    (h : (load_xs_data iso fileLines).1 = .ok ()) :
    (load_xs_data iso fileLines).2.xs_data ≠ [] := by
  revert h
  unfold load_xs_data
  cases parse_xs_file iso.xs_file_location fileLines iso.name with
  | error e => intro h; simp at h
  | ok xs =>
    by_cases hxs : xs = []
    · subst hxs; intro h; simp at h
    · intro _; simp [hxs]

theorem load_xs_data_success_nonempty_witness :
    (load_xs_data isoLoaded fileRoundTrip).2.xs_data ≠ [] :=
  load_xs_data_success_nonempty isoLoaded fileRoundTrip
    (by simp [load_xs_data, isoLoaded, Isotope.default, parse_round_trip_eq])

/-- Claim C7 (code bug): the source's unit error message at `simData.py:39`
is a plain string literal missing the `f` prefix, so `create_transmission`
on an unsupported thickness unit raises with the literal template text —
the message contains neither the isotope's name (`U235` here) nor the actual
unit string (`atoms/cm2`, the constructor default), contradicting the spec's
requirement that errors name the offending isotope and unit value. -/
theorem unit_error_message_lacks_details :
    create_transmission [1000000] isoDefaultUnit =
      .error (.valueError
        "Unsupported thickness unit: \x7bthickness_unit\x7d for \x7bisotope_name\x7d") ∧
    strContainsSub
      "Unsupported thickness unit: \x7bthickness_unit\x7d for \x7bisotope_name\x7d"
      isoDefaultUnit.name = false ∧
    strContainsSub
      "Unsupported thickness unit: \x7bthickness_unit\x7d for \x7bisotope_name\x7d"
      isoDefaultUnit.thickness_unit = false := by
  refine ⟨?_, by decide, by decide⟩
  simp +decide [create_transmission, isoDefaultUnit, Isotope.default]

/-- Claim C8: for every thickness t and every pair of isotopes equal in all
other fields, an isotope with thickness t in mm yields the identical
transmission curve (same `Except` result) as one with thickness t/10 in cm,
for every energy grid. -/
theorem create_transmission_mm_cm_curves (isotope : Isotope) (t : ℚ)
    (energy_grid : List ℚ) :
    create_transmission energy_grid { isotope with thickness := t, thickness_unit := "mm" } =
      create_transmission energy_grid
        { isotope with thickness := t / 10, thickness_unit := "cm" } := by
  simp +decide [create_transmission, create_transmission_validated]

/-- Claim C9: the `//` sentinel acts only once the isotope name has been
seen, and then takes precedence over comment skipping: (a) with the name not
yet found, a line not containing the name — even one containing `//` — is
skipped and scanning continues; (b) with the name found, any line containing
`//` and not containing `#data...` ends the scan at once with the data
collected so far, regardless of the remaining lines and even if the line
starts with `#`. -/
theorem scanLines_sentinel_scope (isotope_name line : String) (rest : List String)
    (st : ScanState) :
    (st.isotope_xs_found = false → strContainsSub line isotope_name = false →
      scanLines isotope_name (line :: rest) st = scanLines isotope_name rest st) ∧
    (st.isotope_xs_found = true → strContainsSub line "//" = true →
      strContainsSub line "#data..." = false →
      scanLines isotope_name (line :: rest) st = .ok ⟨st.xs_data, true, false⟩) := by
  constructor
  · intro h1 h2
    simp [scanLines, h1, h2]
  · intro h1 h2 h3
    simp [scanLines, h1, h2, h3]

theorem scanLines_sentinel_scope_witness :
    scanLines "A" ["w // w", "A", "#data...", "//"] ⟨[], false, false⟩ =
        scanLines "A" ["A", "#data...", "//"] ⟨[], false, false⟩ ∧
    scanLines "A" ["#s // end", "1.0 2.0"] ⟨[], true, true⟩ = .ok ⟨[], true, false⟩ :=
  ⟨(scanLines_sentinel_scope "A" "w // w" ["A", "#data...", "//"] ⟨[], false, false⟩).1
      rfl (by decide),
   (scanLines_sentinel_scope "A" "#s // end" ["1.0 2.0"] ⟨[], true, true⟩).2
      rfl (by decide) (by decide)⟩

/-- Claim C10: `load_xs_data` is atomic only on the parser's error paths —
when `parse_xs_file` raises, the error propagates and the isotope (its
`xs_data` field included) is unchanged; but when `parse_xs_file` returns an
empty list, the empty list is assigned to `xs_data` before the error is
raised, so a previously loaded series is discarded on that path. -/
theorem load_xs_data_error_atomicity (iso : Isotope) (fileLines : List String) :
    (∀ e, parse_xs_file iso.xs_file_location fileLines iso.name = .error e →
      load_xs_data iso fileLines = (.error e, iso)) ∧
    (parse_xs_file iso.xs_file_location fileLines iso.name = .ok [] →
      load_xs_data iso fileLines =
        (.error (.valueError ("No data loaded for " ++ iso.name ++ " from " ++
          iso.xs_file_location)), { iso with xs_data := [] })) := by
  constructor
  · intro e h
    simp [load_xs_data, h]
  · intro h
    simp [load_xs_data, h]

theorem load_xs_data_error_atomicity_witness :
    load_xs_data isoLoaded ["none here"] =
        (.error (.valueError ("Cross-section data for " ++ "A" ++
          " not found in " ++ "xs.dat")), isoLoaded) ∧
    load_xs_data isoLoaded ["A"] =
        (.error (.valueError ("No data loaded for " ++ "A" ++ " from " ++ "xs.dat")),
         { isoLoaded with xs_data := [] }) :=
  ⟨(load_xs_data_error_atomicity isoLoaded ["none here"]).1 _ (by decide),
   (load_xs_data_error_atomicity isoLoaded ["A"]).2 (by decide)⟩
